import Mathlib

/-!
Verification of the RVOL scanner / monitor core (`src/app.py`).

Shallow embedding of the per-symbol computation and session-state logic of
the Streamlit app `app.py`:

* the scanner scan loop (lines 209–262): length guard, trailing average
  volume, RVOL, price/RVOL filter, result sorting;
* the monitor cycle (lines 333–413): shrunken lookback, RVOL, delta against
  the previous snapshot, snapshot overwrite;
* the watchlist / snapshot session state (lines 287–301 add, 313–320 bulk
  replace, 459–465 remove).

Modelling conventions:

* Python floats are embedded as `ℚ` (exact arithmetic; no claim below
  depends on floating-point rounding, and the presentation-layer `round`
  calls are abstracted away since no claim mentions the rounded values).
* A "cleaned bar series" is the dataframe `tmp` after `dropna()`: a list of
  `(close, volume)` rows, oldest first.  The yfinance fetch and column
  extraction are upstream of every claim and are not modelled; the claims
  quantify over the cleaned series directly.
* The session dictionary `st.session_state.monitor_data` is embedded as a
  function `String → Option Snap`; `dict.get(sym, default)` becomes
  `(d sym).getD default`.
* Python's list slice `s[-a:-1]` (with `a ≥ 1`) is `sliceNegToLast a`.
-/

namespace App

/-- One cleaned bar: a row of the dataframe `tmp = {"Close": …, "Volume": …}`
after `dropna()` (app.py line 226 / 346). -/
structure Bar where
  close : ℚ
  volume : ℚ
  deriving DecidableEq

/-- Arithmetic mean of a list of rationals (`pandas Series.mean`; the empty
case never arises in the guarded code paths below). -/
def mean (l : List ℚ) : ℚ := l.sum / l.length

/-- Python slice `s[-a:-1]` for `a ≥ 1`: the elements from index
`max 0 (n - a)` up to `n - 2` inclusive. -/
def sliceNegToLast (a : ℕ) (l : List ℚ) : List ℚ :=
  (l.drop (l.length - a)).dropLast

/-- The most recent bar, `tmp.iloc[-1]` (only evaluated on nonempty `tmp`). -/
def lastBar (tmp : List Bar) : Bar := tmp.getLastD ⟨0, 0⟩

/-- The bar before the most recent one, `tmp.iloc[-2]`. -/
def prevBar (tmp : List Bar) : Bar := tmp.dropLast.getLastD ⟨0, 0⟩

/-- Volume column of the cleaned frame, `tmp["Volume"]`. -/
def volumes (tmp : List Bar) : List ℚ := tmp.map Bar.volume

/-- Scanner trailing average volume, app.py line 235:
`float(tmp["Volume"].iloc[-lookback:-1].mean()) if lookback>0 else
 float(tmp["Volume"].iloc[:-1].mean())`. -/
def scanAvgVol (lookback : ℕ) (tmp : List Bar) : ℚ :=
  if lookback > 0 then mean (sliceNegToLast lookback (volumes tmp))
  else mean (volumes tmp).dropLast

/-- Percent change of the last close against the previous close, app.py
line 246: `(close[-1] - close[-2]) / close[-2] * 100` when `len(tmp) >= 2`,
else `0.0`. -/
def pctChange (tmp : List Bar) : ℚ :=
  if 2 ≤ tmp.length then
    ((lastBar tmp).close - (prevBar tmp).close) / (prevBar tmp).close * 100
  else 0

/-- Scanner filter parameters (sidebar inputs, app.py lines 188–192;
the UI enforces `lookback ≥ 5`). -/
structure ScanParams where
  lookback : ℕ
  min_rvol : ℚ
  min_price : ℚ
  max_price : ℚ

/-- A row appended to `scan_results`, app.py lines 243–250 (values kept
exact; the Python code stores presentation-rounded copies). -/
structure ScanResult where
  symbol : String
  price : ℚ
  pct_change : ℚ
  rvol : ℚ
  current_volume : ℚ
  avg_volume : ℚ
  deriving DecidableEq

/-- Outcome of one iteration of the scanner loop for one symbol with a
cleaned series, app.py lines 226–250. -/
inductive ScanOutcome where
  /-- `len(tmp) < lookback+1` (also covers empty `tmp`): skipped with the
  sidebar note "zu wenige gültige Bars" for early symbols (line 227). -/
  | insufficientBars (n : ℕ)
  /-- `avg_vol <= 0`: skipped with a bare `continue`, no message (line 236). -/
  | zeroAvgVol
  /-- valid reading that fails the price/RVOL filter (line 242). -/
  | filteredOut
  /-- valid reading passing the filter: a row is appended (line 243). -/
  | hit (r : ScanResult)
  deriving DecidableEq

/-- `true` iff the outcome appended a row to `scan_results`. -/
def ScanOutcome.isHit : ScanOutcome → Bool
  | .hit _ => true
  | _ => false

/-- One iteration of the scanner loop (app.py lines 226–250) on the cleaned
series `tmp` for symbol `s`. -/
def scanStep (p : ScanParams) (s : String) (tmp : List Bar) : ScanOutcome :=
  if tmp.length < p.lookback + 1 then .insufficientBars tmp.length
  else
    let last_close := (lastBar tmp).close
    let curr_vol := (lastBar tmp).volume
    let avg_vol := scanAvgVol p.lookback tmp
    if avg_vol ≤ 0 then .zeroAvgVol
    else
      let rvol := curr_vol / avg_vol
      if p.min_price ≤ last_close ∧ last_close ≤ p.max_price ∧ p.min_rvol ≤ rvol then
        .hit ⟨s, last_close, pctChange tmp, rvol, curr_vol, avg_vol⟩
      else .filteredOut

/-- Monitor trailing average volume, app.py lines 356–360:
`look = min(len(tmp)-1, lookback)`; if `look < 1` fall back to the mean of
all but the last bar (or `curr_vol` on a single bar), else
`tmp["Volume"].iloc[-look-1:-1].mean()`. -/
def monitorAvgVol (lookback : ℕ) (tmp : List Bar) : ℚ :=
  let look := min (tmp.length - 1) lookback
  if look < 1 then
    if tmp.length > 1 then mean (volumes tmp).dropLast else (lastBar tmp).volume
  else
    if look > 0 then mean (sliceNegToLast (look + 1) (volumes tmp))
    else (lastBar tmp).volume

/-- Monitor RVOL, app.py line 361:
`curr_rvol = curr_vol / avg_vol if avg_vol>0 else 0.0`. -/
def monitorRvol (lookback : ℕ) (tmp : List Bar) : ℚ :=
  if 0 < monitorAvgVol lookback tmp then
    (lastBar tmp).volume / monitorAvgVol lookback tmp
  else 0

/-- The last `n` elements of a list (the whole list when `n ≥ length`). -/
def lastN (n : ℕ) (l : List ℚ) : List ℚ := l.drop (l.length - n)

/-- `avg_volume` as the spec's §4.2 words define it:
the arithmetic mean of the `lookback` bar volumes immediately preceding the
most recent bar (`mean(volume for bars[-(lookback+1):-1])`).  Used only to
compare the code's computation against the spec sentence. -/
def specAvgVol (lookback : ℕ) (tmp : List Bar) : ℚ :=
  mean (lastN lookback (volumes tmp).dropLast)

/-- One snapshot entry of `st.session_state.monitor_data`, app.py line 41:
`{"price": …, "rvol": …, "last_checked": …}`, each field `None` until the
first monitor reading.  Timestamps are abstracted to `ℕ`. -/
structure Snap where
  price : Option ℚ
  rvol : Option ℚ
  last_checked : Option ℕ
  deriving DecidableEq

/-- The all-`None` entry written when a symbol is first added
(app.py lines 294–298 and 319): the spec's `Unseen` state. -/
def Snap.unseen : Snap := ⟨none, none, none⟩

/-- The `monitor_data` dictionary, `symbol -> Snap`. -/
def MonitorData := String → Option Snap

/-- The empty dictionary (`st.session_state.monitor_data = {}`, line 41). -/
def MonitorData.empty : MonitorData := fun _ => none

/-- Python `monitor_data[sym] = v`. -/
def MonitorData.set (d : MonitorData) (sym : String) (v : Snap) : MonitorData :=
  fun s => if s = sym then some v else d s

/-- Python `del monitor_data[sym]` (guarded by `if sym in monitor_data`,
so deleting an absent key is the identity, matching line 463). -/
def MonitorData.del (d : MonitorData) (sym : String) : MonitorData :=
  fun s => if s = sym then none else d s

/-- A row appended to `monitor_results`, app.py lines 401–411 (values kept
exact; trend is the literal marker string written by the code). -/
structure MonitorRow where
  symbol : String
  price : ℚ
  delta_price_pct : Option ℚ
  delta_rvol : Option ℚ
  rvol : ℚ
  current_vol : ℚ
  avg_vol : ℚ
  trend : String
  last_checked : ℕ
  deriving DecidableEq

/-- Delta of the price against the previous snapshot and the trend marker,
app.py lines 368–384.  `prev_price is None` (first observation) gives
`(0.0, "—")`; a stored `prev_price == 0` raises `ZeroDivisionError`, caught
at line 380, leaving `delta_price_pct = None` and the trend at its
initial `"—"`. -/
def deltaPrice (prev_price : Option ℚ) (curr_price : ℚ) : Option ℚ × String :=
  match prev_price with
  | none => (some 0, "—")
  | some p =>
    if p = 0 then (none, "—")
    else
      let d := (curr_price - p) / p * 100
      (some d, if 0 < d then "↑" else if d < 0 then "↓" else "—")

/-- Delta of the RVOL against the previous snapshot, app.py lines 386–392:
`0.0` on first observation, else `curr_rvol - prev_rvol`. -/
def deltaRvol (prev_rvol : Option ℚ) (curr_rvol : ℚ) : Option ℚ :=
  match prev_rvol with
  | none => some 0
  | some r => some (curr_rvol - r)

/-- One iteration of the monitor cycle for one symbol with a nonempty
cleaned series `tmp` (app.py lines 352–411): compute the reading, the delta
against `monitor_data.get(sym, {"price": None, "rvol": None})`, overwrite
`monitor_data[sym]` with the new reading and the current time `now`, and
append a row.  Returns the row and the updated dictionary. -/
def monitorStep (lookback : ℕ) (now : ℕ) (d : MonitorData) (sym : String)
    (tmp : List Bar) : MonitorRow × MonitorData :=
  let curr_price := (lastBar tmp).close
  let curr_vol := (lastBar tmp).volume
  let avg_vol := monitorAvgVol lookback tmp
  let curr_rvol := if 0 < avg_vol then curr_vol / avg_vol else 0
  let prev := (d sym).getD Snap.unseen
  let dp := deltaPrice prev.price curr_price
  let dr := deltaRvol prev.rvol curr_rvol
  (⟨sym, curr_price, dp.1, dr, curr_rvol, curr_vol, avg_vol, dp.2, now⟩,
   d.set sym ⟨some curr_price, some curr_rvol, some now⟩)

/-- The session state the claims touch: the watchlist list and the
snapshot dictionary (app.py lines 38–41). -/
structure SessionState where
  watchlist : List String
  monitor_data : MonitorData

/-- Adding one selected symbol from the scanner tab, app.py lines 290–299:
no-op when already present, else append to the watchlist and initialize the
snapshot entry to all-`None`. -/
def addSymbol (st : SessionState) (sym : String) : SessionState :=
  if sym ∈ st.watchlist then st
  else ⟨st.watchlist ++ [sym], st.monitor_data.set sym Snap.unseen⟩

/-- Removing one symbol from the monitor tab, app.py lines 460–464:
`watchlist.remove(r)` (first occurrence, guarded by membership) and
`del monitor_data[r]` (guarded by key presence). -/
def removeSymbol (st : SessionState) (sym : String) : SessionState :=
  ⟨st.watchlist.erase sym, st.monitor_data.del sym⟩

/-- Python `str.split(",")` on the character list. -/
def splitCommaAux : List Char → List Char → List (List Char)
  | [], acc => [acc.reverse]
  | c :: rest, acc =>
    if c = ',' then acc.reverse :: splitCommaAux rest []
    else splitCommaAux rest (c :: acc)

/-- Python `str.split(",")`. -/
def pySplitComma (s : String) : List String :=
  (splitCommaAux s.toList []).map List.asString

/-- Python `str.strip()`: drop leading and trailing whitespace. -/
def pyStrip (s : String) : String :=
  (((s.toList.dropWhile Char.isWhitespace).reverse.dropWhile
      Char.isWhitespace).reverse).asString

/-- Python `str.upper()` (ASCII suffices for ticker symbols). -/
def pyUpper (s : String) : String :=
  (s.toList.map Char.toUpper).asString

/-- Parsing the watchlist text area, app.py line 314:
`[s.strip().upper() for s in wl_text.split(",") if s.strip()]`. -/
def parseWatchlistText (text : String) : List String :=
  ((pySplitComma text).filter (fun s => pyStrip s ≠ "")).map
    (fun s => pyUpper (pyStrip s))

/-- `for sym in new_wl: if sym not in monitor_data: monitor_data[sym] = unseen`
(app.py lines 317–319). -/
def ensureKeys (d : MonitorData) : List String → MonitorData
  | [] => d
  | sym :: rest =>
    ensureKeys (if (d sym).isSome then d else d.set sym Snap.unseen) rest

/-- The "Update Watchlist" button, app.py lines 313–319: replace the
watchlist with the parsed text and initialize snapshot entries for keys not
already present.  Entries of dropped symbols are never deleted. -/
def updateWatchlist (st : SessionState) (text : String) : SessionState :=
  let new_wl := parseWatchlistText text
  ⟨new_wl, ensureKeys st.monitor_data new_wl⟩

/-- The comparison used by
`sort_values(by=["%Change","RVOL"], ascending=[False, False])`
(app.py line 262): `a` may be placed (weakly) before `b` iff `a` is
greater-or-equal in the descending lexicographic order on
(`pct_change`, `rvol`). -/
def keyLe (a b : ScanResult) : Prop :=
  b.pct_change < a.pct_change ∨
    (a.pct_change = b.pct_change ∧ b.rvol ≤ a.rvol)

instance : DecidableRel keyLe := fun a b => by
  unfold keyLe; exact inferInstance

instance : IsTotal ScanResult keyLe where
  total a b := by
    rcases lt_trichotomy a.pct_change b.pct_change with h | h | h
    · exact Or.inr (Or.inl h)
    · rcases le_total a.rvol b.rvol with hr | hr
      · exact Or.inr (Or.inr ⟨h.symm, hr⟩)
      · exact Or.inl (Or.inr ⟨h, hr⟩)
    · exact Or.inl (Or.inl h)

instance : IsTrans ScanResult keyLe where
  trans a b c hab hbc := by
    rcases hab with h1 | ⟨e1, r1⟩ <;> rcases hbc with h2 | ⟨e2, r2⟩
    · exact Or.inl (h2.trans h1)
    · exact Or.inl (e2 ▸ h1)
    · exact Or.inl (e1.symm ▸ h2)
    · exact Or.inr ⟨e1.trans e2, r2.trans r1⟩

/-- The result sort, app.py line 262:
`pd.DataFrame(scan_results).sort_values(by=["%Change","RVOL"],
ascending=[False, False])`.  pandas implements a multi-column
`sort_values` with `np.lexsort`, which is stable (the `kind` argument is
ignored for multiple keys), so the faithful model is a stable sort by the
descending lexicographic key: `List.insertionSort` with the total preorder
`keyLe` is stable in exactly that sense. -/
def sortResults (l : List ScanResult) : List ScanResult :=
  l.insertionSort keyLe

/-- The scanner loop (app.py lines 209–255) over a batch of
(symbol, cleaned series) pairs, keeping the appended rows in input order.
Symbols whose fetch failed or whose columns could not be extracted simply
do not appear in the batch. -/
def scanHits (p : ScanParams) (inputs : List (String × List Bar)) :
    List ScanResult :=
  inputs.filterMap fun x =>
    match scanStep p x.1 x.2 with
    | .hit r => some r
    | _ => none

/-- One full scan invocation: the loop followed by the sort of line 262. -/
def runScan (p : ScanParams) (inputs : List (String × List Bar)) :
    List ScanResult :=
  sortResults (scanHits p inputs)

/-! Helper lemmas on slices -/

theorem dropLast_drop_comm (k : ℕ) (l : List ℚ) :
    (l.drop k).dropLast = l.dropLast.drop k := by
  rcases le_or_lt l.length k with h | h
  · rw [List.drop_eq_nil_of_le h, List.drop_eq_nil_of_le (by simp; omega)]
    rfl
  · rw [List.dropLast_eq_take, List.dropLast_eq_take, List.take_drop,
      List.length_drop]
    have hidx : k + (l.length - k - 1) = l.length - 1 := by omega
    rw [hidx]

theorem length_lastN (n : ℕ) (l : List ℚ) :
    (lastN n l).length = min n l.length := by
  simp only [lastN, List.length_drop]
  omega

theorem sliceNegToLast_eq (a : ℕ) (l : List ℚ) :
    sliceNegToLast a l = l.dropLast.drop (l.length - a) := by
  rw [sliceNegToLast, dropLast_drop_comm]

theorem length_volumes (tmp : List Bar) : (volumes tmp).length = tmp.length := by
  simp [volumes]

/-- The scanner's trailing average (line 235) is the mean of the
`lookback - 1` bars immediately preceding the most recent one. -/
theorem scanAvgVol_eq_lastN (lookback : ℕ) (tmp : List Bar) (hlb : 1 ≤ lookback) :
    scanAvgVol lookback tmp = mean (lastN (lookback - 1) (volumes tmp).dropLast) := by
  rw [scanAvgVol, if_pos (by omega : lookback > 0), sliceNegToLast_eq, lastN]
  have : (volumes tmp).length - lookback =
      (volumes tmp).dropLast.length - (lookback - 1) := by
    simp only [List.length_dropLast]
    omega
  rw [this]

/-- The monitor's trailing average (lines 356–360) is the mean of the
`min (len - 1) lookback` bars immediately preceding the most recent one. -/
theorem monitorAvgVol_eq_lastN (lookback : ℕ) (tmp : List Bar)
    (hlen : 2 ≤ tmp.length) (hlb : 1 ≤ lookback) :
    monitorAvgVol lookback tmp =
      mean (lastN (min (tmp.length - 1) lookback) (volumes tmp).dropLast) := by
  simp only [monitorAvgVol]
  rw [if_neg (by omega), if_pos (by omega), sliceNegToLast_eq, lastN]
  have : (volumes tmp).length - (min (tmp.length - 1) lookback + 1) =
      (volumes tmp).dropLast.length - min (tmp.length - 1) lookback := by
    simp only [List.length_dropLast, length_volumes]
    omega
  rw [this]

/-! Claim C1 -/

/-- Six cleaned bars accepted by the scanner at `lookback = 5`
(`len = lookback + 1`); the oldest bar's volume (100) makes the two
candidate windows differ. -/
def c1Bars : List Bar :=
  [⟨1, 100⟩, ⟨1, 1⟩, ⟨1, 1⟩, ⟨1, 1⟩, ⟨1, 1⟩, ⟨1, 1⟩]

/-- Claim C1, counterexample: on a series of exactly `lookback + 1 = 6`
bars accepted by the scanner, the scanner's `avg_vol`
(`iloc[-lookback:-1]`, line 235) averages only the 4 bars at indices 1–4
and equals 1, while the mean of the `lookback = 5` bars immediately
preceding the most recent bar (the spec's `bars[-(lookback+1):-1]`) is
`104/5`.  The scanner's average is therefore not the claimed mean. -/
theorem c1_avg_window_counterexample :
    c1Bars.length = 5 + 1 ∧
    scanAvgVol 5 c1Bars = 1 ∧
    specAvgVol 5 c1Bars = 104 / 5 ∧
    scanAvgVol 5 c1Bars ≠ specAvgVol 5 c1Bars := by
  refine ⟨rfl, ?_, ?_, ?_⟩ <;>
    norm_num [scanAvgVol, specAvgVol, mean, sliceNegToLast, lastN, volumes,
      c1Bars, List.dropLast]

/-- Claim C1 (amended): for an accepted series (`len ≥ lookback + 1`,
`lookback ≥ 1`), the scanner's `avg_vol` is the arithmetic mean of only the
`lookback - 1` bar volumes immediately preceding the most recent bar, while
the monitor's `avg_vol` is the mean of exactly the `lookback` bar volumes
immediately preceding the most recent bar (the spec's value); in both, the
most recent bar's volume is never included (both windows are taken from
`volumes.dropLast`). -/
theorem c1_avg_window (lookback : ℕ) (tmp : List Bar)
    (hlb : 1 ≤ lookback) (hlen : lookback + 1 ≤ tmp.length) :
    scanAvgVol lookback tmp = mean (lastN (lookback - 1) (volumes tmp).dropLast) ∧
    (lastN (lookback - 1) (volumes tmp).dropLast).length = lookback - 1 ∧
    monitorAvgVol lookback tmp = specAvgVol lookback tmp ∧
    (lastN lookback (volumes tmp).dropLast).length = lookback := by
  refine ⟨scanAvgVol_eq_lastN _ _ hlb, ?_, ?_, ?_⟩
  · rw [length_lastN]
    simp only [List.length_dropLast, length_volumes]
    omega
  · rw [monitorAvgVol_eq_lastN _ _ (by omega) hlb, specAvgVol]
    have : min (tmp.length - 1) lookback = lookback := by omega
    rw [this]
  · rw [length_lastN]
    simp only [List.length_dropLast, length_volumes]
    omega

/-- Claim C1, witness: the amended theorem applied to `c1Bars` at
`lookback = 5`. -/
theorem c1_avg_window_witness :
    1 ≤ 5 ∧ 5 + 1 ≤ c1Bars.length ∧
    (scanAvgVol 5 c1Bars = mean (lastN (5 - 1) (volumes c1Bars).dropLast) ∧
     (lastN (5 - 1) (volumes c1Bars).dropLast).length = 5 - 1 ∧
     monitorAvgVol 5 c1Bars = specAvgVol 5 c1Bars ∧
     (lastN 5 (volumes c1Bars).dropLast).length = 5) :=
  ⟨by decide, by decide, c1_avg_window 5 c1Bars (by decide) (by decide)⟩

/-! Claim C2 -/

/-- Two cleaned bars whose single trailing volume is zero: the monitor's
`avg_vol` is `0`. -/
def c2Bars : List Bar := [⟨1, 0⟩, ⟨1, 5⟩]

/-- Six cleaned bars with zero volume everywhere: the scanner's `avg_vol`
is `0`. -/
def c2ScanBars : List Bar :=
  [⟨1, 0⟩, ⟨1, 0⟩, ⟨1, 0⟩, ⟨1, 0⟩, ⟨1, 0⟩, ⟨1, 0⟩]

/-- Claim C2, counterexample: with zero trailing volume the monitoring
cycle does not exclude the symbol and does not report a structured
"zero trailing volume" reason — line 361 silently sets `curr_rvol = 0.0`
and the row is appended to `monitor_results` (and the snapshot is even
overwritten with `rvol = 0`). -/
theorem c2_zero_volume_counterexample :
    monitorAvgVol 50 c2Bars = 0 ∧
    (monitorStep 50 0 MonitorData.empty "AAPL" c2Bars).1.symbol = "AAPL" ∧
    (monitorStep 50 0 MonitorData.empty "AAPL" c2Bars).1.rvol = 0 := by
  refine ⟨?_, rfl, ?_⟩ <;>
    norm_num [monitorStep, monitorAvgVol, mean, sliceNegToLast, volumes,
      lastBar, c2Bars, List.dropLast]

/-- Claim C2 (amended): with `avg_vol ≤ 0` the scanner excludes the symbol
from the batch — silently, with a bare `continue` (line 236) — while the
monitoring cycle keeps the symbol in the cycle's results with
`rvol = 0.0` (line 361): the reading is reported as a silent zero value,
not as a structured Invalid. -/
theorem c2_zero_volume (p : ScanParams) (s : String) (lookback now : ℕ)
    (d : MonitorData) (sym : String) (tmp tmp' : List Bar)
    (hlen : p.lookback + 1 ≤ tmp.length)
    (havg : scanAvgVol p.lookback tmp ≤ 0)
    (havg' : monitorAvgVol lookback tmp' ≤ 0) :
    scanStep p s tmp = .zeroAvgVol ∧
    (monitorStep lookback now d sym tmp').1.symbol = sym ∧
    (monitorStep lookback now d sym tmp').1.rvol = 0 := by
  refine ⟨?_, rfl, ?_⟩
  · simp only [scanStep]
    rw [if_neg (by omega), if_pos havg]
  · simp only [monitorStep]
    rw [if_neg (not_lt.mpr havg')]

/-- Claim C2, witness: the amended theorem applied to `c2ScanBars`
(scanner) and `c2Bars` (monitor). -/
theorem c2_zero_volume_witness :
    (⟨5, 2, 2, 20⟩ : ScanParams).lookback + 1 ≤ c2ScanBars.length ∧
    scanAvgVol (⟨5, 2, 2, 20⟩ : ScanParams).lookback c2ScanBars ≤ 0 ∧
    monitorAvgVol 50 c2Bars ≤ 0 ∧
    (scanStep ⟨5, 2, 2, 20⟩ "X" c2ScanBars = .zeroAvgVol ∧
     (monitorStep 50 0 MonitorData.empty "AAPL" c2Bars).1.symbol = "AAPL" ∧
     (monitorStep 50 0 MonitorData.empty "AAPL" c2Bars).1.rvol = 0) :=
  ⟨by decide,
   by norm_num [scanAvgVol, mean, sliceNegToLast, volumes, c2ScanBars,
        List.dropLast],
   by norm_num [monitorAvgVol, mean, sliceNegToLast, volumes, c2Bars,
        List.dropLast],
   c2_zero_volume ⟨5, 2, 2, 20⟩ "X" 50 0 MonitorData.empty "AAPL"
     c2ScanBars c2Bars (by decide)
     (by norm_num [scanAvgVol, mean, sliceNegToLast, volumes, c2ScanBars,
           List.dropLast])
     (by norm_num [monitorAvgVol, mean, sliceNegToLast, volumes, c2Bars,
           List.dropLast])⟩

/-! Claim C3 -/

/-- Two cleaned bars — fewer than the `lookback + 1 = 51` the spec
requires. -/
def c3Bars : List Bar := [⟨10, 4⟩, ⟨11, 8⟩]

/-- Claim C3, counterexample: on a series of 2 bars with `lookback = 50`
the monitoring cycle does not report "insufficient history" and does not
withhold the reading — it shrinks the window (`look = min(len-1, lookback)`,
line 356) and produces a full reading (`rvol = 8/4 = 2`). -/
theorem c3_insufficient_history_counterexample :
    c3Bars.length < 50 + 1 ∧
    (monitorStep 50 0 MonitorData.empty "AAPL" c3Bars).1.symbol = "AAPL" ∧
    (monitorStep 50 0 MonitorData.empty "AAPL" c3Bars).1.rvol = 2 := by
  refine ⟨by decide, rfl, ?_⟩
  norm_num [monitorStep, monitorAvgVol, mean, sliceNegToLast, volumes,
    lastBar, c3Bars, List.dropLast]

/-- Claim C3 (amended): a series shorter than `lookback + 1` bars is
skipped by the scanner with the distinguishable "insufficient bars"
outcome (line 227), but the monitoring cycle still produces a reading for
it whenever at least 2 cleaned bars exist, averaging over all
`len - 1` preceding bars instead. -/
theorem c3_insufficient_history (p : ScanParams) (s : String)
    (lookback now : ℕ) (d : MonitorData) (sym : String) (tmp tmp' : List Bar)
    (hshort : tmp.length < p.lookback + 1)
    (h2 : 2 ≤ tmp'.length) (hlb : 1 ≤ lookback)
    (hshort' : tmp'.length < lookback + 1) :
    scanStep p s tmp = .insufficientBars tmp.length ∧
    (monitorStep lookback now d sym tmp').1.symbol = sym ∧
    monitorAvgVol lookback tmp' = mean (volumes tmp').dropLast := by
  refine ⟨?_, rfl, ?_⟩
  · simp only [scanStep]
    rw [if_pos hshort]
  · rw [monitorAvgVol_eq_lastN _ _ h2 hlb]
    have hmin : min (tmp'.length - 1) lookback = tmp'.length - 1 := by omega
    rw [hmin, lastN]
    have h0 : (volumes tmp').dropLast.length - (tmp'.length - 1) = 0 := by
      simp only [List.length_dropLast, length_volumes]
      omega
    rw [h0, List.drop_zero]

/-- Claim C3, witness: the amended theorem applied to `c3Bars` at
`lookback = 50` (monitor) and to `c3Bars` against the scanner's guard. -/
theorem c3_insufficient_history_witness :
    c3Bars.length < (⟨50, 2, 2, 20⟩ : ScanParams).lookback + 1 ∧
    2 ≤ c3Bars.length ∧ 1 ≤ 50 ∧ c3Bars.length < 50 + 1 ∧
    (scanStep ⟨50, 2, 2, 20⟩ "X" c3Bars = .insufficientBars c3Bars.length ∧
     (monitorStep 50 0 MonitorData.empty "AAPL" c3Bars).1.symbol = "AAPL" ∧
     monitorAvgVol 50 c3Bars = mean (volumes c3Bars).dropLast) :=
  ⟨by decide, by decide, by decide, by decide,
   c3_insufficient_history ⟨50, 2, 2, 20⟩ "X" 50 0 MonitorData.empty "AAPL"
     c3Bars c3Bars (by decide) (by decide) (by decide) (by decide)⟩

/-! Claim C4 -/

/-- Claim C4: for a symbol observed by the monitoring cycle for the first
time — its snapshot entry has absent price and rvol (which covers both a
missing entry and the all-`None` entry written on add) — the emitted
deltas are `delta_price_pct = 0`, `delta_rvol = 0` and the neutral trend
marker `"—"`, regardless of the computed absolute price and rvol
(app.py lines 382–384 and 391–392). -/
theorem c4_first_observation (lookback now : ℕ) (d : MonitorData)
    (sym : String) (tmp : List Bar)
    (hp : ((d sym).getD Snap.unseen).price = none)
    (hr : ((d sym).getD Snap.unseen).rvol = none) :
    (monitorStep lookback now d sym tmp).1.delta_price_pct = some 0 ∧
    (monitorStep lookback now d sym tmp).1.delta_rvol = some 0 ∧
    (monitorStep lookback now d sym tmp).1.trend = "—" := by
  simp [monitorStep, hp, hr, deltaPrice, deltaRvol]

/-- Two cleaned bars with arbitrary definite values, for the C4 witness. -/
def c4Bars : List Bar := [⟨10, 4⟩, ⟨12, 8⟩]

/-- Claim C4, witness: the theorem applied to an absent snapshot entry
and `c4Bars` (whose computed reading is decidedly nonzero). -/
theorem c4_first_observation_witness :
    ((MonitorData.empty "AAPL").getD Snap.unseen).price = none ∧
    ((MonitorData.empty "AAPL").getD Snap.unseen).rvol = none ∧
    ((monitorStep 50 7 MonitorData.empty "AAPL" c4Bars).1.delta_price_pct = some 0 ∧
     (monitorStep 50 7 MonitorData.empty "AAPL" c4Bars).1.delta_rvol = some 0 ∧
     (monitorStep 50 7 MonitorData.empty "AAPL" c4Bars).1.trend = "—") :=
  ⟨rfl, rfl, c4_first_observation 50 7 MonitorData.empty "AAPL" c4Bars rfl rfl⟩

/-! Claim C5 -/

/-- Folding the inlined conditional back into `monitorRvol`. -/
theorem monitorRvol_def (lookback : ℕ) (tmp : List Bar) :
    (if 0 < monitorAvgVol lookback tmp then
       (lastBar tmp).volume / monitorAvgVol lookback tmp
     else 0) = monitorRvol lookback tmp := rfl

/-- Claim C5: for a symbol with a valid reading, the monitoring cycle
overwrites the snapshot entry with the new price, new rvol and the current
timestamp immediately after computing the delta (app.py lines 395–399),
and a following cycle's deltas are computed exactly against this cycle's
stored values ("new minus old-before-overwrite"), never an older
snapshot. -/
theorem c5_snapshot_overwrite (lookback t1 t2 : ℕ) (d : MonitorData)
    (sym : String) (tmp1 tmp2 : List Bar)
    (hp : (lastBar tmp1).close ≠ 0) :
    (monitorStep lookback t1 d sym tmp1).2 sym =
      some ⟨some (lastBar tmp1).close, some (monitorRvol lookback tmp1), some t1⟩ ∧
    (monitorStep lookback t2 (monitorStep lookback t1 d sym tmp1).2 sym
        tmp2).1.delta_price_pct =
      some (((lastBar tmp2).close - (lastBar tmp1).close) /
        (lastBar tmp1).close * 100) ∧
    (monitorStep lookback t2 (monitorStep lookback t1 d sym tmp1).2 sym
        tmp2).1.delta_rvol =
      some (monitorRvol lookback tmp2 - monitorRvol lookback tmp1) := by
  have hset : (monitorStep lookback t1 d sym tmp1).2 sym =
      some ⟨some (lastBar tmp1).close, some (monitorRvol lookback tmp1), some t1⟩ := by
    simp only [monitorStep, MonitorData.set, monitorRvol_def]
    simp only [if_true]
  refine ⟨hset, ?_, ?_⟩
  · simp only [monitorStep, MonitorData.set, monitorRvol_def, deltaPrice]
    simp only [if_true, Option.getD_some]
    rw [if_neg hp]
  · simp only [monitorStep, MonitorData.set, monitorRvol_def, deltaRvol]
    simp only [if_true, Option.getD_some]

/-- First-cycle bars for the C5 witness: price 10, rvol `4/2 = 2`. -/
def c5Bars1 : List Bar := [⟨9, 2⟩, ⟨10, 4⟩]

/-- Second-cycle bars for the C5 witness: price 10.5, rvol `5/2 = 2.5`
(the spec §8 example: `delta_price_pct = 5.0`, `delta_rvol = 0.5`). -/
def c5Bars2 : List Bar := [⟨10, 2⟩, ⟨21/2, 5⟩]

/-- Claim C5, witness: the theorem applied to two concrete consecutive
cycles over the same symbol. -/
theorem c5_snapshot_overwrite_witness :
    (lastBar c5Bars1).close ≠ 0 ∧
    ((monitorStep 50 1 MonitorData.empty "AAPL" c5Bars1).2 "AAPL" =
      some ⟨some (lastBar c5Bars1).close, some (monitorRvol 50 c5Bars1), some 1⟩ ∧
     (monitorStep 50 2 (monitorStep 50 1 MonitorData.empty "AAPL" c5Bars1).2 "AAPL"
        c5Bars2).1.delta_price_pct =
      some (((lastBar c5Bars2).close - (lastBar c5Bars1).close) /
        (lastBar c5Bars1).close * 100) ∧
     (monitorStep 50 2 (monitorStep 50 1 MonitorData.empty "AAPL" c5Bars1).2 "AAPL"
        c5Bars2).1.delta_rvol =
      some (monitorRvol 50 c5Bars2 - monitorRvol 50 c5Bars1)) :=
  ⟨by norm_num [lastBar, c5Bars1, List.getLastD],
   c5_snapshot_overwrite 50 1 2 MonitorData.empty "AAPL" c5Bars1 c5Bars2
     (by norm_num [lastBar, c5Bars1, List.getLastD])⟩

/-! Claim C6 -/

/-- Claim C6: every scan invocation returns its result set sorted
descending by `pct_change`, secondarily descending by `rvol` (the order
`keyLe`), as a permutation of the hits produced in input order, and two
hits with equal sort keys keep their original relative order (pandas
implements the multi-key `sort_values` of line 262 with `np.lexsort`,
which is stable).  Determinism of the scan is definitional: `runScan` is a
pure function of its inputs, so identical inputs yield identical ordered
output. -/
theorem c6_sorted_stable (p : ScanParams) (inputs : List (String × List Bar))
    (a b : ScanResult)
    (hpct : a.pct_change = b.pct_change) (hrv : a.rvol = b.rvol)
    (hsub : List.Sublist [a, b] (scanHits p inputs)) :
    List.Sorted keyLe (runScan p inputs) ∧
    List.Perm (runScan p inputs) (scanHits p inputs) ∧
    List.Sublist [a, b] (runScan p inputs) := by
  refine ⟨List.sorted_insertionSort keyLe _, List.perm_insertionSort keyLe _, ?_⟩
  exact List.pair_sublist_insertionSort (Or.inr ⟨hpct, hrv.ge⟩) hsub

/-- Six identical bars giving a valid reading: price 10, rvol 1,
pct_change 0. -/
def c6Bars : List Bar :=
  [⟨10, 2⟩, ⟨10, 2⟩, ⟨10, 2⟩, ⟨10, 2⟩, ⟨10, 2⟩, ⟨10, 2⟩]

/-- Filter parameters accepting the `c6Bars` reading. -/
def c6Params : ScanParams := ⟨5, 1, 0, 100⟩

/-- The hit row produced by `c6Bars` under `c6Params`. -/
def c6Hit (s : String) : ScanResult := ⟨s, 10, 0, 1, 2, 2⟩

/-- Evaluating the scanner loop on two symbols with identical data: both
hit with identical sort keys. -/
theorem c6_hits_eval :
    scanHits c6Params [("A", c6Bars), ("B", c6Bars)] =
      [c6Hit "A", c6Hit "B"] := by
  norm_num [scanHits, scanStep, scanAvgVol, mean, sliceNegToLast, volumes,
    lastBar, prevBar, pctChange, c6Bars, c6Params, c6Hit, List.dropLast,
    List.filterMap]

/-- Claim C6, witness: the theorem applied to a two-symbol batch with an
exact tie on both sort keys. -/
theorem c6_sorted_stable_witness :
    (c6Hit "A").pct_change = (c6Hit "B").pct_change ∧
    (c6Hit "A").rvol = (c6Hit "B").rvol ∧
    List.Sublist [c6Hit "A", c6Hit "B"] (scanHits c6Params [("A", c6Bars), ("B", c6Bars)]) ∧
    (List.Sorted keyLe (runScan c6Params [("A", c6Bars), ("B", c6Bars)]) ∧
     List.Perm (runScan c6Params [("A", c6Bars), ("B", c6Bars)])
       (scanHits c6Params [("A", c6Bars), ("B", c6Bars)]) ∧
     List.Sublist [c6Hit "A", c6Hit "B"] (runScan c6Params [("A", c6Bars), ("B", c6Bars)])) :=
  ⟨rfl, rfl,
   by rw [c6_hits_eval],
   c6_sorted_stable c6Params [("A", c6Bars), ("B", c6Bars)] (c6Hit "A")
     (c6Hit "B") rfl rfl (by rw [c6_hits_eval])⟩

/-! Claim C7 -/

/-- Claim C7: for a scanned symbol with a valid reading (enough bars,
positive trailing average), a ScanResult is produced if and only if
`min_price ≤ price ≤ max_price` and `rvol ≥ min_rvol` (app.py line 242). -/
theorem c7_filter (p : ScanParams) (s : String) (tmp : List Bar)
    (hlen : p.lookback + 1 ≤ tmp.length)
    (havg : 0 < scanAvgVol p.lookback tmp) :
    (scanStep p s tmp).isHit = true ↔
      (p.min_price ≤ (lastBar tmp).close ∧ (lastBar tmp).close ≤ p.max_price ∧
       p.min_rvol ≤ (lastBar tmp).volume / scanAvgVol p.lookback tmp) := by
  simp only [scanStep]
  rw [if_neg (by omega), if_neg (not_le.mpr havg)]
  by_cases hcond : p.min_price ≤ (lastBar tmp).close ∧
      (lastBar tmp).close ≤ p.max_price ∧
      p.min_rvol ≤ (lastBar tmp).volume / scanAvgVol p.lookback tmp
  · rw [if_pos hcond]
    simp [ScanOutcome.isHit, hcond]
  · rw [if_neg hcond]
    simp [ScanOutcome.isHit, hcond]

/-- Six bars whose reading has price 10 and rvol 3 (trailing average 2,
current volume 6): the spec's "included" example. -/
def c7Bars : List Bar :=
  [⟨10, 2⟩, ⟨10, 2⟩, ⟨10, 2⟩, ⟨10, 2⟩, ⟨10, 2⟩, ⟨10, 6⟩]

/-- Price range [2, 20] and `min_rvol = 2`, the spec's example filter. -/
def c7Params : ScanParams := ⟨5, 2, 2, 20⟩

/-- Claim C7, witness: the theorem applied to the spec's included example
(price 10, rvol 3 against range [2, 20] and `min_rvol = 2`). -/
theorem c7_filter_witness :
    c7Params.lookback + 1 ≤ c7Bars.length ∧
    0 < scanAvgVol c7Params.lookback c7Bars ∧
    ((scanStep c7Params "X" c7Bars).isHit = true ↔
      (c7Params.min_price ≤ (lastBar c7Bars).close ∧
       (lastBar c7Bars).close ≤ c7Params.max_price ∧
       c7Params.min_rvol ≤
         (lastBar c7Bars).volume / scanAvgVol c7Params.lookback c7Bars)) :=
  ⟨by decide,
   by norm_num [scanAvgVol, mean, sliceNegToLast, volumes, c7Bars, c7Params,
     List.dropLast],
   c7_filter c7Params "X" c7Bars (by decide)
     (by norm_num [scanAvgVol, mean, sliceNegToLast, volumes, c7Bars,
       c7Params, List.dropLast])⟩

/-! Claim C8 -/

/-- Claim C8: removing a symbol deletes its snapshot entry (app.py lines
460–464); adding it again afterward re-initializes the entry to the
all-absent Unseen state (lines 294–298, when the removal actually emptied
it from the watchlist so the add is not a no-op), and in every case the
next monitoring cycle for the symbol emits the first-observation delta
`(0, 0, "—")` rather than a comparison against a pre-removal value. -/
theorem c8_remove_readd (st : SessionState) (sym : String)
    (lookback now : ℕ) (tmp : List Bar) :
    (removeSymbol st sym).monitor_data sym = none ∧
    (sym ∉ (removeSymbol st sym).watchlist →
      (addSymbol (removeSymbol st sym) sym).monitor_data sym = some Snap.unseen) ∧
    (monitorStep lookback now (addSymbol (removeSymbol st sym) sym).monitor_data
        sym tmp).1.delta_price_pct = some 0 ∧
    (monitorStep lookback now (addSymbol (removeSymbol st sym) sym).monitor_data
        sym tmp).1.delta_rvol = some 0 ∧
    (monitorStep lookback now (addSymbol (removeSymbol st sym) sym).monitor_data
        sym tmp).1.trend = "—" := by
  have hdel : (removeSymbol st sym).monitor_data sym = none := by
    simp [removeSymbol, MonitorData.del]
  have hprev : ((addSymbol (removeSymbol st sym) sym).monitor_data sym).getD
      Snap.unseen = Snap.unseen := by
    by_cases hmem : sym ∈ (removeSymbol st sym).watchlist
    · simp [addSymbol, hmem, hdel]
    · simp [addSymbol, hmem, MonitorData.set]
  have hpr : (((addSymbol (removeSymbol st sym) sym).monitor_data sym).getD
      Snap.unseen).price = none := by rw [hprev]; rfl
  have hrv : (((addSymbol (removeSymbol st sym) sym).monitor_data sym).getD
      Snap.unseen).rvol = none := by rw [hprev]; rfl
  refine ⟨hdel, ?_, ?_, ?_, ?_⟩
  · intro hnot
    simp [addSymbol, hnot, MonitorData.set]
  all_goals simp [monitorStep, deltaPrice, deltaRvol, hpr, hrv]

/-- A watchlist state holding AAPL with a fully tracked snapshot. -/
def c8St : SessionState :=
  ⟨["AAPL"], MonitorData.set MonitorData.empty "AAPL" ⟨some 5, some 1, some 0⟩⟩

/-- Two cleaned bars with definite values, for the C8 witness. -/
def c8Bars : List Bar := [⟨10, 4⟩, ⟨12, 8⟩]

/-- Claim C8, witness: the theorem applied to `c8St`, whose removal really
drops AAPL from the watchlist. -/
theorem c8_remove_readd_witness :
    "AAPL" ∉ (removeSymbol c8St "AAPL").watchlist ∧
    ((removeSymbol c8St "AAPL").monitor_data "AAPL" = none ∧
     (addSymbol (removeSymbol c8St "AAPL") "AAPL").monitor_data "AAPL" =
       some Snap.unseen ∧
     (monitorStep 50 9 (addSymbol (removeSymbol c8St "AAPL") "AAPL").monitor_data
        "AAPL" c8Bars).1.delta_price_pct = some 0 ∧
     (monitorStep 50 9 (addSymbol (removeSymbol c8St "AAPL") "AAPL").monitor_data
        "AAPL" c8Bars).1.delta_rvol = some 0 ∧
     (monitorStep 50 9 (addSymbol (removeSymbol c8St "AAPL") "AAPL").monitor_data
        "AAPL" c8Bars).1.trend = "—") :=
  have h := c8_remove_readd c8St "AAPL" 50 9 c8Bars
  have hnot : "AAPL" ∉ (removeSymbol c8St "AAPL").watchlist := by decide
  ⟨hnot, h.1, h.2.1 hnot, h.2.2.1, h.2.2.2.1, h.2.2.2.2⟩

/-! Claim C9 -/

/-- The empty session state (fresh `st.session_state`, lines 38–41). -/
def emptyState : SessionState := ⟨[], MonitorData.empty⟩

/-- Claim C9, counterexample: the "Update Watchlist" bulk replace
(lines 313–315) performs no deduplication — the input text `"AAPL,AAPL"`
yields a watchlist in which AAPL appears twice. -/
theorem c9_dedup_counterexample :
    (updateWatchlist emptyState "AAPL,AAPL").watchlist = ["AAPL", "AAPL"] ∧
    ¬ (updateWatchlist emptyState "AAPL,AAPL").watchlist.Nodup := by
  exact ⟨by decide, by decide⟩

/-- Claim C9 (amended): `add` and `remove` preserve deduplication of the
watchlist (the add is guarded by membership, line 291), and every symbol
stored by the bulk replace is the trimmed, uppercased form of a nonempty
input token (line 314) — but the bulk replace does not deduplicate, so
duplicate input tokens produce duplicate watchlist entries. -/
theorem c9_normalized (st : SessionState) (sym text : String)
    (hnd : st.watchlist.Nodup) :
    (addSymbol st sym).watchlist.Nodup ∧
    (removeSymbol st sym).watchlist.Nodup ∧
    ∀ s ∈ (updateWatchlist st text).watchlist,
      ∃ raw ∈ pySplitComma text, pyStrip raw ≠ "" ∧ s = pyUpper (pyStrip raw) := by
  refine ⟨?_, ?_, ?_⟩
  · by_cases hmem : sym ∈ st.watchlist
    · simpa [addSymbol, hmem] using hnd
    · simp [addSymbol, hmem, List.nodup_append, hnd]
  · simpa [removeSymbol] using hnd.erase sym
  · intro s hs
    simp only [updateWatchlist, parseWatchlistText, List.mem_map,
      List.mem_filter, decide_eq_true_eq] at hs
    obtain ⟨raw, ⟨hraw, hne⟩, rfl⟩ := hs
    exact ⟨raw, hraw, hne, rfl⟩

/-- Claim C9, witness: the amended theorem applied to a concrete
deduplicated state. -/
theorem c9_normalized_witness :
    (⟨["TSLA"], MonitorData.empty⟩ : SessionState).watchlist.Nodup ∧
    ((addSymbol ⟨["TSLA"], MonitorData.empty⟩ "AAPL").watchlist.Nodup ∧
     (removeSymbol ⟨["TSLA"], MonitorData.empty⟩ "AAPL").watchlist.Nodup ∧
     ∀ s ∈ (updateWatchlist ⟨["TSLA"], MonitorData.empty⟩ " nio , pltr ").watchlist,
       ∃ raw ∈ pySplitComma " nio , pltr ", pyStrip raw ≠ "" ∧
         s = pyUpper (pyStrip raw)) :=
  ⟨by decide, c9_normalized ⟨["TSLA"], MonitorData.empty⟩ "AAPL" " nio , pltr "
    (by decide)⟩

/-! Claim C10 -/

/-- The bulk-replace key initialization (lines 317–319) never touches a
key that is already present. -/
theorem ensureKeys_preserves (l : List String) (d : MonitorData) (sym : String)
    (h : (d sym).isSome) : ensureKeys d l sym = d sym := by
  induction l generalizing d with
  | nil => rfl
  | cons x rest ih =>
    by_cases hx : (d x).isSome
    · simp only [ensureKeys, if_pos hx]
      exact ih d h
    · simp only [ensureKeys, if_neg hx]
      have hne : sym ≠ x := fun heq => hx (heq ▸ h)
      have hset : (MonitorData.set d x Snap.unseen) sym = d sym := by
        simp [MonitorData.set, hne]
      rw [ih _ (by rw [hset]; exact h), hset]

/-- A bulk replace preserves any present snapshot entry. -/
theorem updateWatchlist_preserves (st : SessionState) (t sym : String)
    (snap : Snap) (h : st.monitor_data sym = some snap) :
    (updateWatchlist st t).monitor_data sym = some snap := by
  simp only [updateWatchlist]
  rw [ensureKeys_preserves _ _ _ (by rw [h]; rfl), h]

/-- Claim C10 (implicit behavior of lines 313–319 and 363–399): a bulk
replace never deletes snapshot entries — a symbol dropped from the
watchlist keeps its entry, a later bulk replace that re-adds it reuses the
retained entry (the `sym not in monitor_data` guard skips it), and the
next monitoring cycle computes its deltas against the pre-removal values
rather than the first-observation `(0, 0, neutral)`. -/
theorem c10_snapshot_retention (st : SessionState) (t1 t2 sym : String)
    (snap : Snap) (p r : ℚ) (lookback now : ℕ) (tmp : List Bar)
    (hentry : st.monitor_data sym = some snap)
    (_hdrop : sym ∉ parseWatchlistText t1)
    (_hreadd : sym ∈ parseWatchlistText t2)
    (hprice : snap.price = some p) (hrvol : snap.rvol = some r)
    (hp : p ≠ 0) :
    (updateWatchlist st t1).monitor_data sym = some snap ∧
    (updateWatchlist (updateWatchlist st t1) t2).monitor_data sym = some snap ∧
    (monitorStep lookback now
        (updateWatchlist (updateWatchlist st t1) t2).monitor_data sym
        tmp).1.delta_price_pct = some (((lastBar tmp).close - p) / p * 100) ∧
    (monitorStep lookback now
        (updateWatchlist (updateWatchlist st t1) t2).monitor_data sym
        tmp).1.delta_rvol = some (monitorRvol lookback tmp - r) := by
  have h1 : (updateWatchlist st t1).monitor_data sym = some snap :=
    updateWatchlist_preserves st t1 sym snap hentry
  have h2 : (updateWatchlist (updateWatchlist st t1) t2).monitor_data sym =
      some snap :=
    updateWatchlist_preserves _ t2 sym snap h1
  refine ⟨h1, h2, ?_, ?_⟩
  · simp only [monitorStep, monitorRvol_def, h2, Option.getD_some, hprice,
      deltaPrice]
    rw [if_neg hp]
  · simp only [monitorStep, monitorRvol_def, h2, Option.getD_some, hrvol,
      deltaRvol]

/-- The tracked pre-removal snapshot for the C10 witness. -/
def c10Snap : Snap := ⟨some 10, some 2, some 3⟩

/-- A session holding AAPL with snapshot `c10Snap`. -/
def c10St : SessionState :=
  ⟨["AAPL"], MonitorData.set MonitorData.empty "AAPL" c10Snap⟩

/-- Two cleaned bars for the monitoring cycle of the C10 witness. -/
def c10Bars : List Bar := [⟨11, 4⟩, ⟨12, 8⟩]

/-- Claim C10, witness: AAPL is dropped by replacing the watchlist with
"TSLA" and re-added by a second replace; its old snapshot is reused. -/
theorem c10_snapshot_retention_witness :
    c10St.monitor_data "AAPL" = some c10Snap ∧
    "AAPL" ∉ parseWatchlistText "TSLA" ∧
    "AAPL" ∈ parseWatchlistText "AAPL,TSLA" ∧
    c10Snap.price = some 10 ∧ c10Snap.rvol = some 2 ∧ (10 : ℚ) ≠ 0 ∧
    ((updateWatchlist c10St "TSLA").monitor_data "AAPL" = some c10Snap ∧
     (updateWatchlist (updateWatchlist c10St "TSLA") "AAPL,TSLA").monitor_data
       "AAPL" = some c10Snap ∧
     (monitorStep 50 9
        (updateWatchlist (updateWatchlist c10St "TSLA") "AAPL,TSLA").monitor_data
        "AAPL" c10Bars).1.delta_price_pct =
       some (((lastBar c10Bars).close - 10) / 10 * 100) ∧
     (monitorStep 50 9
        (updateWatchlist (updateWatchlist c10St "TSLA") "AAPL,TSLA").monitor_data
        "AAPL" c10Bars).1.delta_rvol = some (monitorRvol 50 c10Bars - 2)) :=
  ⟨rfl, by decide, by decide, rfl, rfl, by norm_num,
   c10_snapshot_retention c10St "TSLA" "AAPL,TSLA" "AAPL" c10Snap 10 2 50 9
     c10Bars rfl (by decide) (by decide) rfl rfl (by norm_num)⟩

end App
